import Mathlib

/-!
Verification of the RAG data platform core (src/app.py) against its
natural-language specification. The data model and the operations of the
DataWarehouse class are embedded shallowly: Python strings become Lean
strings (or lists of characters inside the chunker), pandas DataFrames
become an explicit column-based table type over exact rationals, Python
dictionaries become insertion-ordered association lists, caught Python
exceptions become Except values supplied by oracles, and outbound network
calls are recorded explicitly so that claims about their absence are
statable.
-/

set_option autoImplicit false

namespace RagPlatform

/-! ## Chunker

Modelled from the spec (section 4.1): the layered-separator text splitter
(RecursiveCharacterTextSplitter of the langchain library) is external
library code that is not part of this repository; only its configuration
(chunk_size 1000, chunk_overlap 200, separators paragraph / newline /
space / empty) appears in src/app.py lines 54-59. The model below follows
the words of the spec: split at paragraph boundaries, then line
boundaries, then word boundaries, then arbitrary character boundaries,
falling back to the next-coarser separator only when a piece cannot be
brought within the size budget at the current granularity, then pack the
pieces into chunks of at most the maximum length, each chunk starting
with an overlap suffix of its predecessor. -/

/-- Modelled from the spec: split a text at every occurrence of a nonempty
separator (given as first character plus remaining characters), keeping
the separator attached to the piece before it, so the concatenation of
the pieces is the original text. The fuel argument makes the recursion
structural; fuel equal to the text length always suffices. -/
def splitKeepFuel (sep : Char × List Char) : Nat → List Char → List Char → List (List Char)
  | 0, acc, l => [acc.reverse ++ l]
  | _ + 1, acc, [] => [acc.reverse]
  | fuel + 1, acc, c :: rest =>
    if c = sep.1 ∧ sep.2.isPrefixOf rest then
      (acc.reverse ++ c :: sep.2) :: splitKeepFuel sep fuel [] (rest.drop sep.2.length)
    else
      splitKeepFuel sep fuel (c :: acc) rest

/-- Modelled from the spec: split at every occurrence of the separator. -/
def splitKeep (sep : Char × List Char) (text : List Char) : List (List Char) :=
  splitKeepFuel sep text.length [] text

/-- Modelled from the spec: refine a text into pieces of length at most
size, trying each separator in order and recursing with the finer
separators on any oversized piece; when no separator is left the text is
split at arbitrary character boundaries (single characters). -/
def refineText (size : Nat) : List (Char × List Char) → List Char → List (List Char)
  | [], text => text.map (fun c => [c])
  | s :: rest, text =>
    (splitKeep s text).flatMap
      (fun p => if p.length ≤ size then [p] else refineText size rest p)

/-- Modelled from the spec: greedily pack consecutive pieces into chunks
of length at most size; when a chunk closes, the next chunk starts with a
suffix of it of length at most overlap, trimmed further when needed so
that the new chunk also fits the size budget. -/
def packPieces (size overlap : Nat) : List Char → List (List Char) → List (List Char)
  | acc, [] => if acc.isEmpty then [] else [acc]
  | acc, p :: ps =>
    if acc.length + p.length ≤ size then
      packPieces size overlap (acc ++ p) ps
    else
      acc :: packPieces size overlap
        (acc.drop (acc.length - min overlap (size - p.length)) ++ p) ps

/-- Modelled from the spec: the chunker. Empty input yields no chunks;
nonempty input within the size budget yields exactly the input as its one
chunk; longer input is refined along the separator hierarchy and packed
into overlapping chunks. -/
def chunkText (size overlap : Nat) (seps : List (Char × List Char)) (text : List Char) :
    List (List Char) :=
  if text.isEmpty then []
  else if text.length ≤ size then [text]
  else packPieces size overlap [] (refineText size seps text)

/-- Separators configured in DataWarehouse.__init__ (src/app.py line 58):
paragraph break, newline, space, and the empty separator (modelled as the
character-level base case of refineText), in that order. -/
def configuredSeps : List (Char × List Char) :=
  [('\n', ['\n']), ('\n', []), (' ', [])]

/-- split_text of the configured text splitter (chunk_size 1000,
chunk_overlap 200, src/app.py lines 54-59), acting on strings. -/
def split_text (s : String) : List String :=
  (chunkText 1000 200 configuredSeps s.toList).map (fun l => String.mk l)

/-! ### Chunker lemmas -/

theorem packPieces_length_le (size overlap : Nat) :
    ∀ (ps : List (List Char)) (acc : List Char), acc.length ≤ size →
      (∀ p ∈ ps, p.length ≤ size) →
      ∀ c ∈ packPieces size overlap acc ps, c.length ≤ size := by
  intro ps
  induction ps with
  | nil =>
    intro acc hacc _ c hc
    simp only [packPieces] at hc
    by_cases h : acc.isEmpty <;> simp [h] at hc
    subst hc; exact hacc
  | cons p ps ih =>
    intro acc hacc hps c hc
    have hp : p.length ≤ size := hps p (List.mem_cons_self p ps)
    have hps' : ∀ q ∈ ps, q.length ≤ size := fun q hq => hps q (List.mem_cons_of_mem p hq)
    simp only [packPieces] at hc
    by_cases h : acc.length + p.length ≤ size
    · simp only [h, if_true] at hc
      exact ih (acc ++ p) (by simpa using h) hps' c hc
    · simp only [h, if_false] at hc
      rcases List.mem_cons.mp hc with rfl | hc'
      · exact hacc
      · refine ih _ ?_ hps' c hc'
        have hdrop : (acc.drop (acc.length - min overlap (size - p.length))).length
            = acc.length - (acc.length - min overlap (size - p.length)) :=
          List.length_drop _ _
        have hmin : min overlap (size - p.length) ≤ size - p.length := min_le_right _ _
        simp only [List.length_append, hdrop]
        omega

theorem refineText_length_le (size : Nat) (hs : 0 < size) :
    ∀ (seps : List (Char × List Char)) (text : List Char),
      ∀ p ∈ refineText size seps text, p.length ≤ size := by
  intro seps
  induction seps with
  | nil =>
    intro text p hp
    simp only [refineText, List.mem_map] at hp
    obtain ⟨c, _, rfl⟩ := hp
    simpa using hs
  | cons s rest ih =>
    intro text p hp
    simp only [refineText, List.mem_flatMap] at hp
    obtain ⟨q, _, hq⟩ := hp
    by_cases h : q.length ≤ size
    · simp only [h, if_true, List.mem_singleton] at hq
      subst hq; exact h
    · simp only [h, if_false] at hq
      exact ih q p hq

theorem chunkText_empty (size overlap : Nat) (seps : List (Char × List Char)) :
    chunkText size overlap seps [] = [] := rfl

theorem chunkText_short (size overlap : Nat) (seps : List (Char × List Char))
    (text : List Char) (h1 : text ≠ []) (h2 : text.length ≤ size) :
    chunkText size overlap seps text = [text] := by
  simp [chunkText, List.isEmpty_iff, h1, h2]

theorem chunkText_chunk_le (size overlap : Nat) (seps : List (Char × List Char))
    (text : List Char) (hs : 0 < size) :
    ∀ c ∈ chunkText size overlap seps text, c.length ≤ size := by
  intro c hc
  by_cases he : text.isEmpty
  · simp [chunkText, he] at hc
  · by_cases hl : text.length ≤ size
    · simp only [chunkText, he, if_false, hl, if_true, Bool.false_eq_true,
        List.mem_singleton] at hc
      subst hc; exact hl
    · simp only [chunkText, he, hl, if_false, Bool.false_eq_true] at hc
      exact packPieces_length_le size overlap _ [] (Nat.zero_le _)
        (refineText_length_le size hs seps text) c hc

/-! ## Tables

Embedding of the pandas DataFrames handled by the warehouse. Cell values
are exact rationals (pandas float64 and int64 values) or strings; a
missing cell (NaN) is none. A DataFrame records its row count, its
reported deep memory usage in MB, and its ordered columns. -/

/-- Column dtypes distinguished by the code: np.number dtypes and object. -/
inductive Dtype
  | float64
  | int64
  | object
deriving DecidableEq, Repr

/-- Dtype.isNumeric models selection by select_dtypes(include=[np.number]). -/
def Dtype.isNumeric : Dtype → Bool
  | .float64 => true
  | .int64 => true
  | .object => false

/-- Cell values: numeric (exact rational standing for the float) or text. -/
inductive CellVal
  | num (q : ℚ)
  | str (s : String)
deriving DecidableEq, Repr

/-- Column of a table: name, dtype, and cells in row order (none = missing). -/
structure DataColumn where
  name : String
  dtype : Dtype
  cells : List (Option CellVal)
deriving DecidableEq, Repr

/-- Table: row count, deep memory usage in MB (memory_usage(deep=True).sum()
divided by 1024 squared, taken as given), and ordered columns. -/
structure DataFrame where
  nrows : Nat
  memMB : ℚ
  cols : List DataColumn
deriving DecidableEq, Repr

/-- Numeric values present in a column, in row order (missing cells skipped,
as pandas reductions skip NaN). -/
def DataColumn.numVals (c : DataColumn) : List ℚ :=
  c.cells.filterMap (fun o => match o with
    | some (CellVal.num q) => some q
    | _ => none)

/-- Count of missing cells in a column (df.isnull().sum() for that column). -/
def DataColumn.missingCount (c : DataColumn) : Nat :=
  c.cells.countP (fun o => o.isNone)

/-- Numeric columns of a table in their original order
(df.select_dtypes(include=[np.number]).columns). -/
def DataFrame.numericCols (df : DataFrame) : List DataColumn :=
  df.cols.filter (fun c => c.dtype.isNumeric)

/-- Sum of a list of rationals. -/
def ratSum (l : List ℚ) : ℚ := l.foldr (· + ·) 0

/-- Mean of the non-missing values of a column (df[col].mean()). With no
values pandas yields NaN; the rational model yields 0 by division by zero. -/
def colMean (c : DataColumn) : ℚ := ratSum c.numVals / (c.numVals.length : ℚ)

/-- Sample variance (ddof=1) of the non-missing values of a column. The code
formats std=sqrt of this value; the model keeps the exact variance so the
development stays in exact arithmetic, with no effect on which columns get a
statistics line. With fewer than two values pandas yields NaN; the rational
model yields 0. -/
def colVar (c : DataColumn) : ℚ :=
  let vs := c.numVals
  let m := ratSum vs / (vs.length : ℚ)
  ratSum (vs.map (fun x => (x - m) ^ 2)) / ((vs.length : ℚ) - 1)

/-- Minimum of the non-missing values of a column (df[col].min()); 0 when
there are none (pandas yields NaN there). -/
def colMin (c : DataColumn) : ℚ :=
  match c.numVals with
  | [] => 0
  | x :: xs => xs.foldl min x

/-- Maximum of the non-missing values of a column (df[col].max()); 0 when
there are none (pandas yields NaN there). -/
def colMax (c : DataColumn) : ℚ :=
  match c.numVals with
  | [] => 0
  | x :: xs => xs.foldl max x

/-- Round half up to the nearest integer. -/
def roundHalfUp (q : ℚ) : ℤ := Int.floor (q + 1/2)

/-- Round to one decimal place, modelling the .1f format of the missing-value
percentage (ties in the underlying binary float are not modelled). -/
def roundTo1 (q : ℚ) : ℚ := ((roundHalfUp (q * 10) : ℚ)) / 10

/-- Round to two decimal places, modelling round(x, 2) in get_summary. -/
def roundTo2 (q : ℚ) : ℚ := ((roundHalfUp (q * 100) : ℚ)) / 100

/-- Histogram of column dtypes (df.dtypes.value_counts()): distinct dtypes
with the number of columns of each. The model lists dtypes in first
appearance order; pandas orders by descending count, an ordering no claim
depends on. -/
def dtypeHistogram (df : DataFrame) : List (Dtype × Nat) :=
  (df.cols.map (fun c => c.dtype)).dedup.map
    (fun d => (d, (df.cols.map (fun c => c.dtype)).count d))

/-- Sum of a list of naturals. -/
def natSum (l : List Nat) : Nat := l.foldr (· + ·) 0

/-- Total count of missing cells of the table (df.isnull().sum().sum()). -/
def totalMissing (df : DataFrame) : Nat :=
  natSum (df.cols.map (fun c => c.missingCount))

/-- Lines of the generated dataset description, mirroring the
description_parts list built by _create_dataset_description. Numeric content
is kept structured so that the claims about which lines appear are statable;
rendering to one string is a trailing join in the code. -/
inductive DescLine
  | textLine (s : String)
  | headerLine (filename : String) (rows cols : Nat)
  | columnsLine (names : List String)
  | statLine (col : String) (mean varia mn mx : ℚ)
  | dtypeLine (dtype : Dtype) (count : Nat)
  | missingLine (col : String) (count : Nat) (pct : ℚ)
  | sampleLine (rows : List (List (Option CellVal)))
deriving DecidableEq, Repr

/-- Embedding of DataWarehouse._create_dataset_description (src/app.py lines
263-301): a pure function of the filename and the table, built in the same
order as description_parts in the code. -/
def _create_dataset_description (filename : String) (df : DataFrame) : List DescLine :=
  let base := [DescLine.headerLine filename df.nrows df.cols.length,
               DescLine.columnsLine (df.cols.map (fun c => c.name)),
               DescLine.textLine ""]
  let numeric := df.numericCols
  let statsSection :=
    if 0 < numeric.length then
      DescLine.textLine "Summary Statistics:" ::
        (numeric.take 10).map
          (fun c => DescLine.statLine c.name (colMean c) (colVar c) (colMin c) (colMax c))
    else []
  let dtypeSection :=
    DescLine.textLine "\nData Types:" ::
      (dtypeHistogram df).map (fun p => DescLine.dtypeLine p.1 p.2)
  let missingSection :=
    if 0 < totalMissing df then
      DescLine.textLine "\nMissing Values:" ::
        (df.cols.filter (fun c => 0 < c.missingCount)).map
          (fun c => DescLine.missingLine c.name c.missingCount
            (roundTo1 ((c.missingCount : ℚ) / (df.nrows : ℚ) * 100)))
    else []
  let sampleSection := [DescLine.textLine "\nSample Data (first 3 rows):",
                        DescLine.sampleLine (df.cols.map (fun c => c.cells.take 3))]
  base ++ statsSection ++ dtypeSection ++ missingSection ++ sampleSection

/-! ## Warehouse state

Embedding of the mutable DataWarehouse state (src/app.py lines 48-67):
structured_data is a Python dict (insertion-ordered association list),
documents a list, vectorstore an optional Chroma handle modelled by the
entries it was built from, and stats the counter dictionary. -/

/-- Rendered name of a dtype. -/
def Dtype.render : Dtype → String
  | .float64 => "float64"
  | .int64 => "int64"
  | .object => "object"

/-- Rendering of description lines to one text (the join at line 301). The
two-decimal float format of the code is simplified to toString of the exact
rational, and the row preview to a marker; no claim depends on the rendered
digits, only on which lines appear (see the structured description). -/
def renderDescLine : DescLine → String
  | DescLine.textLine s => s
  | DescLine.headerLine f r c =>
      "Dataset: " ++ f ++ "\nShape: " ++ toString r ++ " rows x " ++ toString c ++ " columns"
  | DescLine.columnsLine names => "Columns: " ++ ", ".intercalate names
  | DescLine.statLine col m v mn mx =>
      "  " ++ col ++ ": mean=" ++ toString m ++ ", var=" ++ toString v ++
        ", min=" ++ toString mn ++ ", max=" ++ toString mx
  | DescLine.dtypeLine d c => "  " ++ d.render ++ ": " ++ toString c ++ " columns"
  | DescLine.missingLine col c p =>
      "  " ++ col ++ ": " ++ toString c ++ " (" ++ toString p ++ "%)"
  | DescLine.sampleLine _ => "(first 3 rows)"

/-- Join of the rendered description lines. -/
def renderDesc (d : List DescLine) : String :=
  "\n".intercalate (d.map renderDescLine)

/-- Document record kept in self.documents (filename, type, content, chunks). -/
structure DocRecord where
  filename : String
  kind : String
  content : String
  chunks : List String
deriving DecidableEq, Repr

/-- Metadata of one index entry (source, type, chunk ordinal, total chunks). -/
structure EntryMeta where
  source : String
  contentKind : String
  chunk : Nat
  total_chunks : Nat
deriving DecidableEq, Repr

/-- One entry of the vector index: the embedded text plus metadata. The
embedding vector itself is opaque remote output and is not modelled. -/
structure IndexEntry where
  text : String
  meta : EntryMeta
deriving DecidableEq, Repr

/-- Stats dictionary of the warehouse (lines 62-67). -/
structure IngestionStats where
  total_rows : Nat
  total_documents : Nat
  total_chunks : Nat
  data_size_mb : ℚ
deriving DecidableEq, Repr

/-- Fresh stats, as set in __init__ and at the reset in process_all_data. -/
def IngestionStats.zero : IngestionStats := ⟨0, 0, 0, 0⟩

/-- State of a DataWarehouse instance. -/
structure Warehouse where
  structured_data : List (String × DataFrame)
  documents : List DocRecord
  vectorstore : Option (List IndexEntry)
  stats : IngestionStats
deriving DecidableEq, Repr

/-- Warehouse state right after __init__. -/
def initWarehouse : Warehouse := ⟨[], [], none, IngestionStats.zero⟩

/-- Python dict assignment d[k] = v: replaces in place when the key exists,
appends otherwise (insertion order preserved). -/
def dictInsert (k : String) (v : DataFrame) :
    List (String × DataFrame) → List (String × DataFrame)
  | [] => [(k, v)]
  | p :: rest => if p.1 = k then (k, v) :: rest else p :: dictInsert k v rest

/-- Decidable equality of caught-exception outcomes. -/
instance exceptDecEq {ε α : Type} [DecidableEq ε] [DecidableEq α] :
    DecidableEq (Except ε α) := fun x y =>
  match x, y with
  | Except.ok a, Except.ok b =>
    if h : a = b then isTrue (by rw [h]) else isFalse (by simp [h])
  | Except.error a, Except.error b =>
    if h : a = b then isTrue (by rw [h]) else isFalse (by simp [h])
  | Except.ok _, Except.error _ => isFalse (by simp)
  | Except.error _, Except.ok _ => isFalse (by simp)

/-- One folder entry as seen by ingestion. Each constructor records the kind
the filename extension dispatches to, together with the outcome the external
reader gives for that file: read_csv, read_excel and the txt read may raise
(modelled as Except), while _parse_pdf and _parse_docx catch their own
errors internally and return the text accumulated so far, possibly empty. -/
inductive SrcFile
  | csv (name : String) (data : Except String DataFrame)
  | excel (name : String) (data : Except String DataFrame)
  | pdf (name : String) (text : String)
  | docx (name : String) (text : String)
  | txt (name : String) (data : Except String String)
  | other (name : String)
deriving DecidableEq, Repr

/-- Filename of a folder entry. -/
def SrcFile.name : SrcFile → String
  | .csv n _ => n
  | .excel n _ => n
  | .pdf n _ => n
  | .docx n _ => n
  | .txt n _ => n
  | .other n => n

/-- Python str.startswith, modelled on the character lists of the strings. -/
def strStartsWith (s pre : String) : Bool :=
  pre.toList.isPrefixOf s.toList

/-! ## Ingestion -/

/-- Step of the loop of _process_structured_data (lines 110-128) for one
folder entry: hidden files are skipped; a CSV or Excel file that loads is
stored under its filename and its rows counted; a load failure is warned
and skipped. -/
def structStep (wh : Warehouse) (f : SrcFile) : Warehouse :=
  if strStartsWith f.name "." then wh
  else
    match f with
    | SrcFile.csv _ (Except.ok df) =>
        { wh with structured_data := dictInsert f.name df wh.structured_data,
                  stats := { wh.stats with total_rows := wh.stats.total_rows + df.nrows } }
    | SrcFile.excel _ (Except.ok df) =>
        { wh with structured_data := dictInsert f.name df wh.structured_data,
                  stats := { wh.stats with total_rows := wh.stats.total_rows + df.nrows } }
    | _ => wh

/-- Embedding of DataWarehouse._process_structured_data (lines 107-132):
loads every CSV/Excel file of the folder, then adds the deep memory size of
EVERY table held in structured_data — including tables kept from earlier
runs — to data_size_mb. -/
def _process_structured_data (folder : List SrcFile) (wh : Warehouse) : Warehouse :=
  let wh1 := folder.foldl structStep wh
  let sz := wh1.stats.data_size_mb + ratSum (wh1.structured_data.map (fun p => p.2.memMB))
  { wh1 with stats := { wh1.stats with data_size_mb := sz } }

/-- Append of one parsed document with counter increment (lines 147-153 and
analogous branches). -/
def appendDoc (wh : Warehouse) (name kind text : String) : Warehouse :=
  { wh with documents := wh.documents ++ [⟨name, kind, text, []⟩],
            stats := { wh.stats with
              total_documents := wh.stats.total_documents + 1 } }

/-- Step of the loop of _process_documents (lines 137-179) for one folder
entry: hidden files are skipped; a PDF, DOCX or TXT file whose extracted
text is nonempty (Python truthiness) is appended to documents and counted;
empty text and txt read failures are skipped. -/
def docStep (wh : Warehouse) (f : SrcFile) : Warehouse :=
  if strStartsWith f.name "." then wh
  else
    match f with
    | SrcFile.pdf _ text => if text ≠ "" then appendDoc wh f.name "pdf" text else wh
    | SrcFile.docx _ text => if text ≠ "" then appendDoc wh f.name "docx" text else wh
    | SrcFile.txt _ (Except.ok text) =>
        if text ≠ "" then appendDoc wh f.name "txt" text else wh
    | _ => wh

/-- Embedding of DataWarehouse._process_documents (lines 134-179). Note the
documents list is appended to, never cleared. -/
def _process_documents (folder : List SrcFile) (wh : Warehouse) : Warehouse :=
  folder.foldl docStep wh

/-- Pairing of list elements with their 0-based position (Python enumerate),
starting from the given index. -/
def withIdx {α β : Type} (f : Nat → α → β) : Nat → List α → List β
  | _, [] => []
  | i, a :: t => f i a :: withIdx f (i + 1) t

/-- Texts with metadata gathered by _create_vector_index (lines 220-248):
one entry per chunk of every document in order, then one description entry
per structured table. -/
def gatherEntries (wh : Warehouse) : List IndexEntry :=
  (wh.documents.flatMap (fun d =>
    let chunks := split_text d.content
    withIdx (fun i c => ⟨c, ⟨d.filename, "document", i, chunks.length⟩⟩) 0 chunks))
  ++ wh.structured_data.map (fun p =>
      ⟨renderDesc (_create_dataset_description p.1 p.2), ⟨p.1, "structured_data", 0, 1⟩⟩)

/-- Embedding of DataWarehouse._create_vector_index (lines 217-261). Every
document gets its chunks field set; when at least one text was gathered the
remote embedding build (Chroma.from_texts) is attempted: on success the
vectorstore handle is replaced and total_chunks set, on failure the error
is shown and the state is otherwise left as it was — in particular the
previous vectorstore handle survives and total_chunks keeps its reset value
0. embedOutcome is the oracle outcome of the remote embedding build. -/
def _create_vector_index (embedOutcome : Except String Unit) (wh : Warehouse) : Warehouse :=
  let docs1 := wh.documents.map (fun d => { d with chunks := split_text d.content })
  let wh1 := { wh with documents := docs1 }
  let entries := gatherEntries wh
  if entries.isEmpty then wh1
  else
    match embedOutcome with
    | Except.ok _ =>
        { wh1 with vectorstore := some entries,
                   stats := { wh1.stats with total_chunks := entries.length } }
    | Except.error _ => wh1

/-- Return value of get_summary (lines 431-441). -/
structure IngestionSummary where
  structured_files : Nat
  total_rows : Nat
  documents : Nat
  chunks_indexed : Nat
  data_size_mb : ℚ
  ready : Bool
deriving DecidableEq, Repr

/-- Embedding of DataWarehouse.get_summary (lines 431-441). -/
def get_summary (wh : Warehouse) : IngestionSummary :=
  ⟨wh.structured_data.length, wh.stats.total_rows, wh.stats.total_documents,
   wh.stats.total_chunks, roundTo2 wh.stats.data_size_mb, wh.vectorstore.isSome⟩

/-- Embedding of DataWarehouse.process_all_data (lines 69-105). The folder
argument is none when os.path.exists is false (error shown, no summary);
otherwise it is the listing of the folder. Stats are reset, then the three
phases run in order, and a summary is always returned — also when the
embedding build failed. -/
def process_all_data (folder : Option (List SrcFile))
    (embedOutcome : Except String Unit) (wh : Warehouse) :
    Option IngestionSummary × Warehouse :=
  match folder with
  | none => (none, wh)
  | some files =>
    let wh1 := { wh with stats := IngestionStats.zero }
    let wh2 := _process_structured_data files wh1
    let wh3 := _process_documents files wh2
    let wh4 := _create_vector_index embedOutcome wh3
    (some (get_summary wh4), wh4)

/-! ## Query operations -/

/-- Result document of a similarity search or retrieval: the page content
plus the source filename from the metadata. -/
structure SearchDoc where
  page_content : String
  source : String
deriving DecidableEq, Repr

/-- Embedding of DataWarehouse.search (lines 303-313): with no vectorstore
the result is []; otherwise the similarity search outcome is consulted and
an error is shown and surfaced as []. simOutcome is the oracle outcome of
vectorstore.similarity_search for this query and k. -/
def search (wh : Warehouse) (simOutcome : Except String (List SearchDoc))
    (_query : String) (_k : Nat) : List SearchDoc :=
  match wh.vectorstore with
  | none => []
  | some _ =>
    match simOutcome with
    | Except.ok docs => docs
    | Except.error _ => []

/-- Embedding of DataWarehouse.ask_structured_data (lines 315-335). The
Bool records whether the pandas agent was created and run. agentOutcome is
the oracle outcome of agent construction plus agent.run, both inside the
try of the code. -/
def ask_structured_data (wh : Warehouse) (agentOutcome : Except String String)
    (_question : String) : String × Bool :=
  if wh.structured_data.isEmpty then ("No structured data loaded.", false)
  else
    match agentOutcome with
    | Except.ok ans => (ans, true)
    | Except.error e => ("Error analyzing structured data: " ++ e, true)

/-- Deduplicated source filenames of the retrieved documents (the Python
set of metadata source values at line 355; set iteration order is
unspecified in Python, the model keeps the order List.dedup gives). -/
def sourcesOf (docs : List SearchDoc) : List String :=
  (docs.map (fun d => d.source)).dedup

/-- Suffix appended by ask_documents when sources were found (line 358). -/
def sourcesSuffix (sources : List String) : String :=
  "\n\n📄 **Sources:** " ++ ", ".intercalate sources

/-- Embedding of DataWarehouse.ask_documents (lines 337-362). qaOutcome is
the oracle outcome of the RetrievalQA chain call: the answer text and the
retrieved source documents. -/
def ask_documents (wh : Warehouse) (qaOutcome : Except String (String × List SearchDoc))
    (_question : String) : String :=
  match wh.vectorstore with
  | none => "No documents indexed."
  | some _ =>
    match qaOutcome with
    | Except.error e => "Error searching documents: " ++ e
    | Except.ok (answer, srcDocs) =>
      let sources := sourcesOf srcDocs
      if sources.isEmpty then answer else answer ++ sourcesSuffix sources

/-- Embedding of DataWarehouse.get_structured_data_summary (lines 414-429). -/
def get_structured_data_summary (wh : Warehouse) : String :=
  if wh.structured_data.isEmpty then "No structured data loaded."
  else
    "\n".intercalate (wh.structured_data.map (fun p =>
      let df := p.2
      let names : List String := df.cols.map (fun c => c.name)
      let numNames : List String := df.numericCols.map (fun c => c.name)
      let dotsA : String := if 5 < names.length then "..." else ""
      let dotsB : String := if 5 < numNames.length then "..." else ""
      "**" ++ p.1 ++ "**: " ++ toString df.nrows ++ " rows, " ++
        toString df.cols.length ++ " columns\n  Columns: " ++
        ", ".intercalate (names.take 5) ++ dotsA ++
        "\n  Numeric fields: " ++ ", ".intercalate (numNames.take 5) ++ dotsB))

/-- Outbound network calls recorded by the model of ask_unified. -/
inductive NetCall
  | similaritySearch
  | llmChat
deriving DecidableEq, Repr

/-- Embedding of DataWarehouse.ask_unified (lines 364-412), recording every
outbound call: the similarity search (which embeds the query remotely) runs
exactly when a vectorstore exists, and the chat completion exactly when
some context block was assembled. -/
def ask_unified (wh : Warehouse) (simOutcome : Except String (List SearchDoc))
    (llmOutcome : Except String String) (question : String) : String × List NetCall :=
  let searchPart : List String × List NetCall :=
    match wh.vectorstore with
    | none => (([] : List String), ([] : List NetCall))
    | some _ =>
      let docs : List SearchDoc := search wh simOutcome question 3
      let excerpts : List String := docs.map (fun d => d.page_content.take 500)
      let part : List String :=
        if docs.isEmpty then []
        else ["**Relevant document excerpts:**\n" ++ "\n".intercalate excerpts]
      (part, [NetCall.similaritySearch])
  let contextParts := searchPart.1 ++
    (if wh.structured_data.isEmpty then [] else
      ["**Available datasets:**\n" ++ get_structured_data_summary wh])
  if contextParts.isEmpty then
    ("No data available to answer this question.", searchPart.2)
  else
    match llmOutcome with
    | Except.ok ans => (ans, searchPart.2 ++ [NetCall.llmChat])
    | Except.error e =>
        ("Error generating response: " ++ e, searchPart.2 ++ [NetCall.llmChat])

/-! ## Demo fixtures used by witnesses and concrete evaluations -/

/-- Table with 10 rows, 1 MB reported memory and no columns. -/
def demoDF10 : DataFrame := ⟨10, 1, []⟩

/-- Folder holding one text file with content hello. -/
def demoFolderTxt : List SrcFile := [SrcFile.txt "a.txt" (Except.ok "hello")]

/-- Folder holding one CSV file that loads as demoDF10. -/
def demoFolderCsv : List SrcFile := [SrcFile.csv "a.csv" (Except.ok demoDF10)]

/-- Warehouse session that already holds one table and nothing else. -/
def demoWarehouseTables : Warehouse :=
  ⟨[("a.csv", demoDF10)], [], none, IngestionStats.zero⟩

/-- Warehouse session with an existing (empty) vector index. -/
def demoWarehouseIndexed : Warehouse := ⟨[], [], some [], IngestionStats.zero⟩

/-! ## Claim theorems: query paths -/

/-- C4: for every question and every oracle outcome, ask_unified on a
session with no vector index and no loaded tables returns the fixed no-data
message and records no outbound network call at all. -/
theorem ask_unified_no_data (wh : Warehouse) (simO : Except String (List SearchDoc))
    (llmO : Except String String) (q : String)
    (hv : wh.vectorstore = none) (hs : wh.structured_data = []) :
    ask_unified wh simO llmO q = ("No data available to answer this question.", []) := by
  simp [ask_unified, hv, hs]

theorem ask_unified_no_data_witness :
    ask_unified initWarehouse (Except.ok []) (Except.ok "hi") "q"
      = ("No data available to answer this question.", []) :=
  ask_unified_no_data initWarehouse (Except.ok []) (Except.ok "hi") "q" rfl rfl

/-- C5: search returns the empty list both when no index exists yet and when
the underlying similarity search raises; being a total function into a list,
the embedded search raises nothing past its boundary in either case. -/
theorem search_degrades (wh : Warehouse) (simO : Except String (List SearchDoc))
    (q : String) (k : Nat) (e : String) :
    (wh.vectorstore = none → search wh simO q k = []) ∧
    search wh (Except.error e) q k = [] := by
  constructor
  · intro hv; simp [search, hv]
  · cases h : wh.vectorstore <;> simp [search, h]

theorem search_degrades_witness :
    search initWarehouse (Except.ok []) "q" 5 = [] ∧
    search demoWarehouseIndexed (Except.error "boom") "q" 5 = [] :=
  ⟨(search_degrades initWarehouse (Except.ok []) "q" 5 "boom").1 rfl,
   (search_degrades demoWarehouseIndexed (Except.ok []) "q" 5 "boom").2⟩

/-- C8: ask_structured_data returns the fixed message without creating or
running the pandas agent when no tables are loaded, and converts every
failure inside the agent into a textual error message; as a total function
into String it returns text on every path. -/
theorem ask_structured_data_spec (wh : Warehouse) (q : String) (e : String)
    (agentO : Except String String) :
    (wh.structured_data = [] →
      ask_structured_data wh agentO q = ("No structured data loaded.", false)) ∧
    (wh.structured_data ≠ [] →
      ask_structured_data wh (Except.error e) q
        = ("Error analyzing structured data: " ++ e, true)) := by
  constructor
  · intro h; simp [ask_structured_data, h]
  · intro h; simp [ask_structured_data, h]

theorem ask_structured_data_spec_witness :
    ask_structured_data initWarehouse (Except.ok "ans") "q"
      = ("No structured data loaded.", false) ∧
    ask_structured_data demoWarehouseTables (Except.error "boom") "q"
      = ("Error analyzing structured data: " ++ "boom", true) :=
  ⟨(ask_structured_data_spec initWarehouse "q" "boom" (Except.ok "ans")).1 rfl,
   (ask_structured_data_spec demoWarehouseTables "q" "boom" (Except.ok "ans")).2
     (List.cons_ne_nil _ _)⟩

/-- C9: when the retrieval chain returns an answer with source documents,
ask_documents appends the Sources suffix exactly when source documents were
found, and the appended list holds each distinct source filename exactly
once (no duplicates, membership identical to the retrieved sources), no
matter how many retrieved chunks share a filename. -/
theorem ask_documents_sources (wh : Warehouse) (vs : List IndexEntry)
    (ans : String) (srcDocs : List SearchDoc) (q : String)
    (hv : wh.vectorstore = some vs) :
    (ask_documents wh (Except.ok (ans, srcDocs)) q
      = if srcDocs = [] then ans else ans ++ sourcesSuffix (sourcesOf srcDocs)) ∧
    (sourcesOf srcDocs).Nodup ∧
    (∀ f, f ∈ sourcesOf srcDocs ↔ ∃ d ∈ srcDocs, d.source = f) := by
  refine ⟨?_, List.nodup_dedup _, ?_⟩
  · simp only [ask_documents, hv]
    by_cases h : srcDocs = []
    · subst h; simp [sourcesOf]
    · have hne : sourcesOf srcDocs ≠ [] := by
        simp [sourcesOf, List.dedup_eq_nil, h]
      simp [h, hne]
  · intro f; simp [sourcesOf, List.mem_dedup, List.mem_map]

theorem ask_documents_sources_witness :
    ask_documents demoWarehouseIndexed
      (Except.ok ("A", [⟨"c1", "f1"⟩, ⟨"c2", "f1"⟩, ⟨"c3", "f2"⟩])) "q"
      = "A" ++ sourcesSuffix (sourcesOf [⟨"c1", "f1"⟩, ⟨"c2", "f1"⟩, ⟨"c3", "f2"⟩]) ∧
    sourcesOf [⟨"c1", "f1"⟩, ⟨"c2", "f1"⟩, (⟨"c3", "f2"⟩ : SearchDoc)] = ["f1", "f2"] := by
  have h := ask_documents_sources demoWarehouseIndexed [] "A"
    [⟨"c1", "f1"⟩, ⟨"c2", "f1"⟩, ⟨"c3", "f2"⟩] "q" rfl
  refine ⟨?_, by decide⟩
  have h1 := h.1
  simpa using h1

/-! ## Claim theorem: chunker -/

/-- C6: the configured text splitter (maximum chunk length 1000, overlap
200): empty input yields an empty sequence, nonempty input no longer than
the maximum yields exactly one chunk (the input itself), and no produced
chunk exceeds the maximum length — the configuration ends with the empty
separator, so the atomic units are single characters, no atomic unit can
itself exceed the budget, and the length bound holds unconditionally. -/
theorem split_text_spec :
    split_text "" = [] ∧
    (∀ s : String, s ≠ "" → s.length ≤ 1000 → split_text s = [s]) ∧
    (∀ s c : String, c ∈ split_text s → c.length ≤ 1000) := by
  refine ⟨rfl, ?_, ?_⟩
  · intro s h1 h2
    have hl : s.toList ≠ [] := by
      intro hh
      exact h1 (by cases s; simp_all [String.toList])
    have h2' : s.toList.length ≤ 1000 := h2
    unfold split_text
    rw [chunkText_short 1000 200 configuredSeps s.toList hl h2']
    rfl
  · intro s c hc
    unfold split_text at hc
    rcases List.mem_map.mp hc with ⟨l, hl, rfl⟩
    exact chunkText_chunk_le 1000 200 configuredSeps s.toList (by norm_num) l hl

theorem split_text_spec_witness :
    split_text "hi" = ["hi"] :=
  split_text_spec.2.1 "hi" (by decide) (by decide)

/-! ## Claim theorem: dataset describer -/

/-- Statistics lines present anywhere in a description. -/
def statLinesOf (d : List DescLine) : List (String × ℚ × ℚ × ℚ × ℚ) :=
  d.filterMap (fun l => match l with
    | DescLine.statLine c m v mn mx => some (c, m, v, mn, mx)
    | _ => none)

/-- Missing-value lines present anywhere in a description. -/
def missingLinesOf (d : List DescLine) : List (String × Nat × ℚ) :=
  d.filterMap (fun l => match l with
    | DescLine.missingLine c n p => some (c, n, p)
    | _ => none)

/-- Header lines present anywhere in a description. -/
def headersOf (d : List DescLine) : List (String × Nat × Nat) :=
  d.filterMap (fun l => match l with
    | DescLine.headerLine f r c => some (f, r, c)
    | _ => none)

/-- Column-list lines present anywhere in a description. -/
def columnsOf (d : List DescLine) : List (List String) :=
  d.filterMap (fun l => match l with
    | DescLine.columnsLine names => some names
    | _ => none)

/-- Dtype histogram lines present anywhere in a description. -/
def dtypeLinesOf (d : List DescLine) : List (Dtype × Nat) :=
  d.filterMap (fun l => match l with
    | DescLine.dtypeLine t c => some (t, c)
    | _ => none)

/-- Sample previews present anywhere in a description. -/
def samplesOf (d : List DescLine) : List (List (List (Option CellVal))) :=
  d.filterMap (fun l => match l with
    | DescLine.sampleLine rows => some rows
    | _ => none)

theorem filterMap_some_eq_map {α β : Type} (f : α → β) (l : List α) :
    l.filterMap (fun x => some (f x)) = l.map f := by
  induction l with
  | nil => rfl
  | cons a t ih => simp [List.filterMap_cons, ih]

theorem filterMap_const_none {α β : Type} (l : List α) :
    l.filterMap (fun _ => (none : Option β)) = [] := by
  induction l with
  | nil => rfl
  | cons a t ih => simp [List.filterMap_cons, ih]

theorem natSum_eq_zero {l : List Nat} (h : natSum l = 0) : ∀ x ∈ l, x = 0 := by
  induction l with
  | nil => simp
  | cons a t ih =>
    have h' : a + natSum t = 0 := h
    intro x hx
    rcases List.mem_cons.mp hx with rfl | hx
    · omega
    · exact ih (by omega) x hx

theorem filterMap_take_map {α β γ : Type} (f : β → Option γ) (g : α → β) (n : Nat)
    (l : List α) :
    (List.take n (l.map g)).filterMap f = (l.take n).filterMap (fun x => f (g x)) := by
  rw [← List.map_take, List.filterMap_map]
  rfl

theorem filter_missing_eq_nil {df : DataFrame} (h : totalMissing df = 0) :
    df.cols.filter (fun c => 0 < c.missingCount) = [] := by
  have h' : natSum (df.cols.map (fun c => c.missingCount)) = 0 := h
  rw [List.filter_eq_nil_iff]
  intro c hc
  have hc0 : c.missingCount = 0 :=
    natSum_eq_zero h' _ (List.mem_map.mpr ⟨c, hc, rfl⟩)
  simp [hc0]

/-- C7: _create_dataset_description is a pure function of its arguments (so
deterministic), and its output holds exactly one header line with the table
name and the row and column counts, exactly one column list with the full
column name list in order, statistics lines for exactly the first 10 (or
fewer) numeric columns in their original order, the histogram of column
dtypes, missing-value lines (name, count, percentage rounded to one
decimal) for exactly the columns with at least one missing cell, and
exactly one preview of the first 3 rows. -/
theorem dataset_description_spec (filename : String) (df : DataFrame) :
    headersOf (_create_dataset_description filename df)
      = [(filename, df.nrows, df.cols.length)] ∧
    columnsOf (_create_dataset_description filename df)
      = [df.cols.map (fun c => c.name)] ∧
    statLinesOf (_create_dataset_description filename df)
      = (df.numericCols.take 10).map
          (fun c => (c.name, colMean c, colVar c, colMin c, colMax c)) ∧
    dtypeLinesOf (_create_dataset_description filename df) = dtypeHistogram df ∧
    missingLinesOf (_create_dataset_description filename df)
      = (df.cols.filter (fun c => 0 < c.missingCount)).map
          (fun c => (c.name, c.missingCount,
            roundTo1 ((c.missingCount : ℚ) / (df.nrows : ℚ) * 100))) ∧
    samplesOf (_create_dataset_description filename df)
      = [df.cols.map (fun c => c.cells.take 3)] := by
  unfold _create_dataset_description
  by_cases h1 : 0 < df.numericCols.length <;> by_cases h2 : 0 < totalMissing df
  · refine ⟨?_, ?_, ?_, ?_, ?_, ?_⟩ <;>
      simp [headersOf, columnsOf, statLinesOf, dtypeLinesOf, missingLinesOf, samplesOf,
        h1, h2, List.filterMap_append, List.filterMap_cons, List.filterMap_map,
        Function.comp_def, filterMap_some_eq_map, filterMap_const_none,
        filterMap_take_map]
  · have h2' : totalMissing df = 0 := by omega
    refine ⟨?_, ?_, ?_, ?_, ?_, ?_⟩ <;>
      simp [headersOf, columnsOf, statLinesOf, dtypeLinesOf, missingLinesOf, samplesOf,
        h1, h2, List.filterMap_append, List.filterMap_cons, List.filterMap_map,
        Function.comp_def, filterMap_some_eq_map, filterMap_const_none,
        filterMap_take_map, filter_missing_eq_nil h2']
  · have hN0 : df.numericCols = [] := List.length_eq_zero.mp (by omega)
    refine ⟨?_, ?_, ?_, ?_, ?_, ?_⟩ <;>
      simp [headersOf, columnsOf, statLinesOf, dtypeLinesOf, missingLinesOf, samplesOf,
        hN0, h2, List.filterMap_append, List.filterMap_cons, List.filterMap_map,
        Function.comp_def, filterMap_some_eq_map, filterMap_const_none,
        filterMap_take_map]
  · have h2' : totalMissing df = 0 := by omega
    have hN0 : df.numericCols = [] := List.length_eq_zero.mp (by omega)
    refine ⟨?_, ?_, ?_, ?_, ?_, ?_⟩ <;>
      simp [headersOf, columnsOf, statLinesOf, dtypeLinesOf, missingLinesOf, samplesOf,
        hN0, h2, List.filterMap_append, List.filterMap_cons, List.filterMap_map,
        Function.comp_def, filterMap_some_eq_map, filterMap_const_none,
        filterMap_take_map, filter_missing_eq_nil h2']

/-! ## Ingestion lemmas -/

theorem structStep_fields (wh : Warehouse) (f : SrcFile) :
    (structStep wh f).vectorstore = wh.vectorstore ∧
    (structStep wh f).documents = wh.documents ∧
    (structStep wh f).stats.total_chunks = wh.stats.total_chunks := by
  unfold structStep
  split
  · exact ⟨rfl, rfl, rfl⟩
  · split <;> exact ⟨rfl, rfl, rfl⟩

theorem foldl_structStep_fields (files : List SrcFile) :
    ∀ wh : Warehouse,
      ((files.foldl structStep wh).vectorstore = wh.vectorstore ∧
       (files.foldl structStep wh).documents = wh.documents ∧
       (files.foldl structStep wh).stats.total_chunks = wh.stats.total_chunks) := by
  induction files with
  | nil => intro wh; exact ⟨rfl, rfl, rfl⟩
  | cons f fs ih =>
    intro wh
    rw [List.foldl_cons]
    obtain ⟨a, b, c⟩ := ih (structStep wh f)
    obtain ⟨a', b', c'⟩ := structStep_fields wh f
    exact ⟨a.trans a', b.trans b', c.trans c'⟩

theorem process_structured_fields (files : List SrcFile) (wh : Warehouse) :
    (_process_structured_data files wh).vectorstore = wh.vectorstore ∧
    (_process_structured_data files wh).documents = wh.documents ∧
    (_process_structured_data files wh).stats.total_chunks = wh.stats.total_chunks := by
  obtain ⟨a, b, c⟩ := foldl_structStep_fields files wh
  exact ⟨a, b, c⟩

theorem docStep_fields (wh : Warehouse) (f : SrcFile) :
    (docStep wh f).vectorstore = wh.vectorstore ∧
    (docStep wh f).stats.total_chunks = wh.stats.total_chunks := by
  unfold docStep
  split
  · exact ⟨rfl, rfl⟩
  · split <;> first
      | exact ⟨rfl, rfl⟩
      | (split <;> exact ⟨rfl, rfl⟩)

theorem foldl_docStep_fields (files : List SrcFile) :
    ∀ wh : Warehouse,
      ((files.foldl docStep wh).vectorstore = wh.vectorstore ∧
       (files.foldl docStep wh).stats.total_chunks = wh.stats.total_chunks) := by
  induction files with
  | nil => intro wh; exact ⟨rfl, rfl⟩
  | cons f fs ih =>
    intro wh
    rw [List.foldl_cons]
    obtain ⟨a, b⟩ := ih (docStep wh f)
    obtain ⟨a', b'⟩ := docStep_fields wh f
    exact ⟨a.trans a', b.trans b'⟩

theorem process_documents_fields (files : List SrcFile) (wh : Warehouse) :
    (_process_documents files wh).vectorstore = wh.vectorstore ∧
    (_process_documents files wh).stats.total_chunks = wh.stats.total_chunks :=
  foldl_docStep_fields files wh

theorem create_vector_index_error_fields (e : String) (wh : Warehouse) :
    (_create_vector_index (Except.error e) wh).vectorstore = wh.vectorstore ∧
    (_create_vector_index (Except.error e) wh).stats = wh.stats := by
  refine ⟨?_, ?_⟩ <;> (simp only [_create_vector_index]; split <;> rfl)

/-! ### Evaluation lemmas for the concrete demo runs -/

theorem split_text_hello : split_text "hello" = ["hello"] := by
  unfold split_text
  rw [chunkText_short 1000 200 configuredSeps _ (by decide) (by decide)]
  rfl

theorem guard_a_txt : strStartsWith "a.txt" "." = false := by decide

theorem guard_a_csv : strStartsWith "a.csv" "." = false := by decide

theorem hello_ne : ("hello" : String) ≠ "" := by decide

theorem roundTo2_zero : roundTo2 0 = 0 := by
  norm_num [roundTo2, roundHalfUp]

theorem roundTo2_one : roundTo2 1 = 1 := by
  norm_num [roundTo2, roundHalfUp]

/-! ## Claim theorems: ingestion lifecycle -/

/-- C2 (amended): when the embedding service fails while building the vector
index, no new index is assigned — the vectorstore keeps exactly its previous
value, so the previous index (if any) remains authoritative, and
total_chunks keeps its reset value 0 — but the failure is caught and
reported rather than fatal: the ingestion run completes and still returns a
summary of the resulting state. -/
theorem embed_failure_keeps_previous_index (files : List SrcFile) (wh : Warehouse)
    (e : String) :
    ((process_all_data (some files) (Except.error e) wh).2.vectorstore
       = wh.vectorstore) ∧
    ((process_all_data (some files) (Except.error e) wh).2.stats.total_chunks = 0) ∧
    ((process_all_data (some files) (Except.error e) wh).1
       = some (get_summary (process_all_data (some files) (Except.error e) wh).2)) := by
  have hA := create_vector_index_error_fields e
    (_process_documents files
      (_process_structured_data files { wh with stats := IngestionStats.zero }))
  have hB := process_documents_fields files
    (_process_structured_data files { wh with stats := IngestionStats.zero })
  have hC := process_structured_fields files { wh with stats := IngestionStats.zero }
  refine ⟨?_, ?_, rfl⟩
  · show (_create_vector_index (Except.error e)
        (_process_documents files
          (_process_structured_data files
            { wh with stats := IngestionStats.zero }))).vectorstore = wh.vectorstore
    rw [hA.1, hB.1, hC.1]
  · show (_create_vector_index (Except.error e)
        (_process_documents files
          (_process_structured_data files
            { wh with stats := IngestionStats.zero }))).stats.total_chunks = 0
    rw [hA.2, hB.2, hC.2.2]
    rfl

/-- C2 counterexample: the failed embedding build is not fatal to the
ingestion run, contrary to the claim: with the embedding service failing,
process_all_data on a folder holding one text document still completes and
returns a summary — with the document counted, zero chunks and the session
not ready — instead of aborting the run. -/
theorem embed_failure_not_fatal :
    (process_all_data (some demoFolderTxt) (Except.error "rate limit") initWarehouse).1
      = some ⟨0, 0, 1, 0, 0, false⟩ := by
  simp [process_all_data, _process_structured_data, _process_documents,
    _create_vector_index, structStep, docStep, appendDoc, gatherEntries, get_summary,
    withIdx, demoFolderTxt, initWarehouse, IngestionStats.zero, SrcFile.name,
    guard_a_txt, hello_ne, split_text_hello, ratSum, roundTo2_zero]

/-- C1: re-ingesting the same folder within one session is not idempotent:
on a folder holding one text file the first run reports chunks_indexed = 1,
while the second run reports chunks_indexed = 2 and leaves two document
records for the single file — process_all_data resets the stats but never
clears self.documents, so re-ingestion appends duplicate document records
and duplicate index entries instead of replacing the set. The stats reset
and the spec show full replacement was the intent, so this is recorded as a
defect of the code. -/
theorem reingestion_not_idempotent :
    ((process_all_data (some demoFolderTxt) (Except.ok ()) initWarehouse).1
       = some ⟨0, 0, 1, 1, 0, true⟩) ∧
    ((process_all_data (some demoFolderTxt) (Except.ok ())
        (process_all_data (some demoFolderTxt) (Except.ok ()) initWarehouse).2).1
       = some ⟨0, 0, 1, 2, 0, true⟩) ∧
    ((process_all_data (some demoFolderTxt) (Except.ok ())
        (process_all_data (some demoFolderTxt) (Except.ok ())
          initWarehouse).2).2.documents.length = 2) := by
  refine ⟨?_, ?_, ?_⟩ <;>
    simp [process_all_data, _process_structured_data, _process_documents,
      _create_vector_index, structStep, docStep, appendDoc, gatherEntries, get_summary,
      withIdx, demoFolderTxt, initWarehouse, IngestionStats.zero, SrcFile.name,
      guard_a_txt, hello_ne, split_text_hello, ratSum, roundTo2_zero]

/-- C3: the stats counters are not a function of the folder contents of the
run alone: after ingesting a folder holding one CSV (10 rows, 1 MB), a
second ingestion of an EMPTY folder still reports total_chunks = 1 and
data_size_mb = 1 — the stale table kept in structured_data from the earlier
run flows into the recomputation, although the second folder holds nothing.
The stats reset at the top of process_all_data shows full recomputation was
the intent, so this is recorded as a defect of the code. -/
theorem stats_not_function_of_folder :
    ((process_all_data (some demoFolderCsv) (Except.ok ()) initWarehouse).1
       = some ⟨1, 10, 0, 1, 1, true⟩) ∧
    ((process_all_data (some ([] : List SrcFile)) (Except.ok ())
        (process_all_data (some demoFolderCsv) (Except.ok ()) initWarehouse).2).1
       = some ⟨1, 0, 0, 1, 1, true⟩) := by
  refine ⟨?_, ?_⟩ <;>
    simp [process_all_data, _process_structured_data, _process_documents,
      _create_vector_index, structStep, docStep, appendDoc, gatherEntries, get_summary,
      withIdx, demoFolderCsv, demoDF10, dictInsert, initWarehouse, IngestionStats.zero,
      SrcFile.name, guard_a_csv, ratSum, roundTo2_one]

theorem empty_text_step (n : String) (e : SrcFile)
    (he : e = SrcFile.pdf n "" ∨ e = SrcFile.docx n "" ∨
      e = SrcFile.txt n (Except.ok "")) :
    (∀ w : Warehouse, structStep w e = w) ∧ (∀ w : Warehouse, docStep w e = w) := by
  rcases he with rfl | rfl | rfl <;>
    exact ⟨fun w => by simp [structStep], fun w => by simp [docStep]⟩

/-- C10: a file whose parser yields empty text (an empty txt file, or a PDF
or DOCX from which no text is extracted) is silently omitted: ingestion over
a folder containing that file produces exactly the same resulting state and
summary as over the folder without it — no document record, no
total_documents increment, no index entries. -/
theorem empty_text_file_omitted (before after : List SrcFile) (n : String) (e : SrcFile)
    (emb : Except String Unit) (wh : Warehouse)
    (he : e = SrcFile.pdf n "" ∨ e = SrcFile.docx n "" ∨
      e = SrcFile.txt n (Except.ok "")) :
    process_all_data (some (before ++ e :: after)) emb wh
      = process_all_data (some (before ++ after)) emb wh := by
  obtain ⟨hs, hd⟩ := empty_text_step n e he
  have h1 : ∀ w : Warehouse, (before ++ e :: after).foldl structStep w
      = (before ++ after).foldl structStep w := by
    intro w
    rw [List.foldl_append, List.foldl_append, List.foldl_cons, hs]
  have h2 : ∀ w : Warehouse, (before ++ e :: after).foldl docStep w
      = (before ++ after).foldl docStep w := by
    intro w
    rw [List.foldl_append, List.foldl_append, List.foldl_cons, hd]
  simp only [process_all_data, _process_structured_data, _process_documents, h1, h2]

theorem empty_text_file_omitted_witness :
    process_all_data (some [SrcFile.txt "e.txt" (Except.ok "")]) (Except.ok ())
        initWarehouse
      = process_all_data (some []) (Except.ok ()) initWarehouse :=
  empty_text_file_omitted [] [] "e.txt" (SrcFile.txt "e.txt" (Except.ok ""))
    (Except.ok ()) initWarehouse (Or.inr (Or.inr rfl))

end RagPlatform
